import Mathlib

/-!
Verification of the simulateEHR two-stage generation engine.

The Python source is embedded shallowly:
* machine floats become exact rationals;
* every call to a numpy sampling primitive is replaced by an explicit
  draw argument (standard-normal draws `z`, standard-uniform draws `u`
  in the unit interval, standard-exponential draws `e`, and direct
  values for chi-square, beta and logistic-transformed draws, whose
  inverse transforms are not rational functions);
* `np.random.normal(loc, scale)` is `loc + scale * z`,
  `np.random.uniform(a, b)` is `a + (b - a) * u`,
  `np.random.exponential(s)` is `s * e` (this is exactly how numpy
  produces the samples from its base stream);
* dataclass `__post_init__` validation becomes a constructor returning
  `Except GenError`, carrying the messages of the raised `ValueError`s,
  classified by the error taxonomy of the design (configuration errors
  raised by the generator validations, entity-validation errors raised
  by the dataclass constructors, the invalid-argument error of
  `create_practices`, and the duplicate-identifier error of
  `create_patients`);
* Python `round` (round half to even) is `pyRound`, `int()` truncation
  toward zero is `pyTrunc`, `np.round(x, 1)` is `pyRound1`,
  `np.clip` is `npClip`.
-/

/-- Python `round`: round half to even, as used by `round(x)` and
`int(round(x))` in the source. -/
def pyRound (q : ℚ) : ℤ :=
  let f := ⌊q⌋
  let r := q - (f : ℚ)
  if r < 1/2 then f
  else if 1/2 < r then f + 1
  else if f % 2 = 0 then f else f + 1

/-- Python `int()` on a float: truncation toward zero. -/
def pyTrunc (q : ℚ) : ℤ :=
  if q < 0 then ⌈q⌉ else ⌊q⌋

/-- `np.round(x, decimals=1)` and Python `round(x, 1)`. -/
def pyRound1 (q : ℚ) : ℚ :=
  (pyRound (10 * q) : ℚ) / 10

/-- `np.clip(x, a_min, a_max)` with both bounds present. -/
def npClip (x lo hi : ℚ) : ℚ := min (max x lo) hi

/-- The error taxonomy of the design: every `raise ValueError(msg)` in
the source is classified by its site. -/
inductive GenError where
  | invalidArgument (msg : String)
  | configurationError (msg : String)
  | entityValidation (msg : String)
  | duplicateIdentifier (msg : String)
deriving DecidableEq

/-- Discriminator for the invalid-argument error class. -/
def GenError.isInvalidArgument : GenError → Bool
  | .invalidArgument _ => true
  | _ => false

theorem pyRound_nonneg (q : ℚ) (h : 0 ≤ q) : 0 ≤ pyRound q := by
  have hf : (0 : ℤ) ≤ ⌊q⌋ := Int.floor_nonneg.mpr h
  unfold pyRound
  dsimp only
  split
  · exact hf
  · split
    · omega
    · split <;> omega

/-! ## Patient data model (src/patients/patient.py, patient_enums.py) -/

/-- Patient sex categories. -/
inductive Sex where
  | MALE
  | FEMALE
deriving DecidableEq

/-- Patient ethnicity categories. -/
inductive Ethnicity where
  | WHITE
  | SOUTH_ASIAN
  | BLACK
  | MIXED
  | OTHER
  | UNKNOWN
deriving DecidableEq

/-- Individual patient record; dates are integer day-offsets from
1960-01-01.  Field layout follows the `Patient` dataclass. -/
structure Patient where
  patient_id : ℕ
  practice_id : ℤ
  birth_date : ℤ
  registration_date : ℤ
  sex : Sex
  ethnicity : Ethnicity
  transfer_date : Option ℤ
  death_date : Option ℤ
deriving DecidableEq

/-- Python truthiness of an optional date: `None` and `0` are falsy.
The source guards each optional-date check with `if self.transfer_date`
or `if self.death_date`, not with an `is not None` test. -/
def optTruthy : Option ℤ → Bool
  | none => false
  | some v => decide (v ≠ 0)

/-- The value of an optional date, read only where the source has
already established truthiness. -/
def optVal (o : Option ℤ) : ℤ := o.getD 0

/-- `Patient.__post_init__`: the validating constructor. The enum-type
checks of the source hold by typing here.  Check order and comparison
directions are exactly those of the source. -/
def mkPatient (pid : ℕ) (pracid b r : ℤ) (sex : Sex) (eth : Ethnicity)
    (td dd : Option ℤ) : Except GenError Patient :=
  if r ≤ b then
    .error (.entityValidation "Birth date must be before registration date")
  else if optTruthy td = true ∧ optVal td ≤ r then
    .error (.entityValidation "Transfer date must be after registration date")
  else if optTruthy dd = true ∧ optVal dd ≤ b then
    .error (.entityValidation "Death date must be after birth date")
  else if optTruthy dd = true ∧ optTruthy td = true ∧ optVal dd ≤ optVal td then
    .error (.entityValidation "Death date must be before transfer date")
  else
    .ok ⟨pid, pracid, b, r, sex, eth, td, dd⟩

/-! ## Practice data model (src/practices/practice.py) -/

/-- Registration date information; day-offsets from 1960-01-01. -/
structure RegistrationDates where
  latest_registration : ℚ
  earliest_registration : ℚ
  median_registration : ℚ
deriving DecidableEq

/-- `RegistrationDates.__post_init__`. -/
def mkRegistrationDates (latest earliest median : ℚ) :
    Except GenError RegistrationDates :=
  if earliest ≤ median ∧ median ≤ latest then
    .ok ⟨latest, earliest, median⟩
  else
    .error (.entityValidation "Registration dates must be ordered: earliest <= median <= latest")

/-- Parameters controlling patient transfer between practices. -/
structure TransferParameters where
  transfer_probability : ℚ
  minimum_gap : ℚ
  median_gap : ℚ
  maximum_gap : ℚ
deriving DecidableEq

/-- `TransferParameters.__post_init__`. -/
def mkTransferParameters (p mn md mx : ℚ) : Except GenError TransferParameters :=
  if ¬ (0 ≤ p ∧ p ≤ 1) then
    .error (.entityValidation "Transfer probability must be between 0 and 1")
  else if ¬ (mn ≤ md ∧ md ≤ mx) then
    .error (.entityValidation "Transfer gaps must be ordered: minimum <= median <= maximum")
  else if mn < 0 then
    .error (.entityValidation "Transfer gaps cannot be negative")
  else
    .ok ⟨p, mn, md, mx⟩

/-- Birth year boundaries for the practice population. -/
structure BirthYearParameters where
  earliest_birth_year : ℚ
  median_birth_year : ℚ
  latest_birth_year : ℚ
deriving DecidableEq

/-- `BirthYearParameters.__post_init__`. -/
def mkBirthYearParameters (e m l : ℚ) : Except GenError BirthYearParameters :=
  if ¬ (e ≤ m ∧ m ≤ l) then
    .error (.entityValidation "Birth years must be ordered: earliest <= median <= latest")
  else if ¬ (1800 ≤ e ∧ e ≤ 2024) then
    .error (.entityValidation "Birth years must be realistic (between 1800 and 2024)")
  else
    .ok ⟨e, m, l⟩

/-- A medical practice.  The ethnicity proportions are a list of
key-value pairs in dict insertion order, mirroring the Python dict. -/
structure Practice where
  practice_id : ℤ
  patient_count : ℤ
  male_proportion : ℚ
  registration_dates : RegistrationDates
  transfer_params : TransferParameters
  birth_years : BirthYearParameters
  ethnicity_proportions : List (String × ℚ)
deriving DecidableEq

/-- Sum of the ethnicity-proportion values. -/
def ethSum (props : List (String × ℚ)) : ℚ := (props.map Prod.snd).sum

/-- The required ethnicity key set of `Practice.__post_init__`. -/
def requiredEthnicityKeys : List String :=
  ["south_asian", "black", "other", "mixed", "unknown", "white"]

/-- Python `set(keys) == required_ethnicities`. -/
def sameKeySet (ks : List String) : Bool :=
  ks.all (fun k => requiredEthnicityKeys.contains k) &&
  requiredEthnicityKeys.all (fun k => ks.contains k)

/-- `Practice.__post_init__`: the validating constructor, with the
checks in source order.  `int(sum(...)) == 1` is `pyTrunc (ethSum _) = 1`. -/
def mkPractice (pid cnt : ℤ) (mp : ℚ) (rd : RegistrationDates)
    (tp : TransferParameters) (byp : BirthYearParameters)
    (props : List (String × ℚ)) : Except GenError Practice :=
  if pid ≤ 0 then
    .error (.entityValidation "Practice ID must be a positive integer")
  else if cnt ≤ 0 then
    .error (.entityValidation "Patient count must be a positive integer")
  else if ¬ (0 ≤ mp ∧ mp ≤ 1) then
    .error (.entityValidation "Male proportion must be between 0 and 1")
  else if ¬ (props.all (fun kv => decide (0 ≤ kv.2 ∧ kv.2 ≤ 1)) = true) then
    .error (.entityValidation "Ethnicity proportions must be between 0 and 1")
  else if ¬ (pyTrunc (ethSum props) = 1) then
    .error (.entityValidation "Ethnicity proportions must sum to 1")
  else if ¬ (sameKeySet (props.map Prod.fst) = true) then
    .error (.entityValidation "Ethnicity proportions must contain exactly these keys")
  else
    .ok ⟨pid, cnt, mp, rd, tp, byp, props⟩

/-! ## Configuration (src/practices/factories/config.py, default_config.py)

The ethnicity sub-bundle (correlation matrix, means, standard
deviations) parameterizes only the multivariate-normal draw, which is
represented by its logistic-transformed outcome values in the draw
record, so it does not appear among the fields used by the engine
logic below. -/

/-- Configuration for demographic parameters. -/
structure DemographicConfigE where
  male_proportion_mean : ℚ
  male_proportion_sd : ℚ
  min_yob_mean : ℚ
  min_yob_sd : ℚ
  med_yob_mean : ℚ
  med_yob_sd : ℚ
  max_yob_mean : ℚ
  max_yob_sd : ℚ

/-- Configuration for registration dates and transfer parameters. -/
structure RegistrationConfigE where
  last_registration_date : ℚ
  min_registration_offset : ℚ
  min_registration_sd : ℚ
  med_registration_offset : ℚ
  med_registration_sd : ℚ
  transfer_probability_mean : ℚ
  transfer_probability_sd : ℚ
  min_transfer_gap : ℚ
  min_transfer_gap_sd : ℚ
  med_transfer_gap_mean : ℚ
  med_transfer_gap_sd : ℚ
  max_transfer_gap_mean : ℚ
  max_transfer_gap_sd : ℚ

/-- Complete configuration for practice generation. -/
structure PracticeConfigE where
  demographics : DemographicConfigE
  registration : RegistrationConfigE
  practice_size_df1 : ℤ
  practice_size_df2 : ℤ
  practice_size_multiplier : ℚ

/-- `get_default_config()` from default_config.py. -/
def defaultConfigE : PracticeConfigE where
  demographics :=
    { male_proportion_mean := 0.4
      male_proportion_sd := 0.05
      min_yob_mean := 1910
      min_yob_sd := 5
      med_yob_mean := 1943
      med_yob_sd := 5
      max_yob_mean := 1980
      max_yob_sd := 5 }
  registration :=
    { last_registration_date := 20926
      min_registration_offset := -4890
      min_registration_sd := 5000
      med_registration_offset := 11000
      med_registration_sd := 2400
      transfer_probability_mean := 0.2
      transfer_probability_sd := 0.075
      min_transfer_gap := 400
      min_transfer_gap_sd := 20
      med_transfer_gap_mean := 7000
      med_transfer_gap_sd := 2000
      max_transfer_gap_mean := 22400
      max_transfer_gap_sd := 8000 }
  practice_size_df1 := 30
  practice_size_df2 := 20
  practice_size_multiplier := 1000

/-! ## Practice factory (src/practices/factories/standard.py) -/

/-- The random draws consumed while generating one practice, in the
order the source consumes them: two chi-square values, one standard
exponential, standard normals for the registration dates, the
logistic-transformed components of the correlated normal vector
(raw probabilities, in the source order south_asian, black, other,
mixed, unknown), and standard normals for the demographic, transfer
and birth-year parameters. -/
structure PracticeDraws where
  chi1 : ℚ
  chi2 : ℚ
  expOff : ℚ
  zRegEarly : ℚ
  zRegMed : ℚ
  rawSouthAsian : ℚ
  rawBlack : ℚ
  rawOther : ℚ
  rawMixed : ℚ
  rawUnknown : ℚ
  zMale : ℚ
  zTransferProb : ℚ
  zTransferMin : ℚ
  zTransferMed : ℚ
  zTransferMax : ℚ
  zYobEarliest : ℚ
  zYobMedian : ℚ
  zYobLatest : ℚ

/-- `StandardPracticeFactory._generate_practice_size`.  `n1`, `n2` are
the two chi-square draws. -/
def genPracticeSize (cfg : PracticeConfigE) (n1 n2 : ℚ) : Except GenError ℤ :=
  if cfg.practice_size_df1 ≤ 0 ∨ cfg.practice_size_df2 ≤ 0 then
    .error (.configurationError "Degrees of freedom must be positive")
  else if cfg.practice_size_multiplier ≤ 0 then
    .error (.configurationError "Practice size multiplier must be positive")
  else
    .ok (pyRound (cfg.practice_size_multiplier *
      (n1 / (cfg.practice_size_df1 : ℚ)) / (n2 / (cfg.practice_size_df2 : ℚ))))

/-- `StandardPracticeFactory._generate_registration_dates`.  `e` is the
standard-exponential draw (scale 1500), `zEarly`, `zMed` the standard
normals behind the two normal draws. -/
def genRegistrationDates (rc : RegistrationConfigE) (e zEarly zMed : ℚ) :
    Except GenError RegistrationDates :=
  if rc.min_registration_sd ≤ 0 ∨ rc.med_registration_sd ≤ 0 then
    .error (.configurationError "All registration date standard deviations must be positive")
  else
    let latest := rc.last_registration_date - 1500 * e
    let earliest := rc.min_registration_offset + rc.min_registration_sd * zEarly
    let median := npClip (rc.med_registration_offset + rc.med_registration_sd * zMed)
      (earliest + 100) (latest - 100)
    mkRegistrationDates latest earliest median

/-- `StandardPracticeFactory._generate_ethnicity_proportions`, starting
from the logistic-transformed raw probabilities.  The result list is in
the dict insertion order of the source. -/
def genEthnicityProportions (sa bl ot mx un : ℚ) : List (String × ℚ) :=
  let effectiveTotal := 1 - un
  let finalSA := sa / effectiveTotal
  let finalBlack := bl / ((1 - sa) * effectiveTotal)
  let finalMixed := mx / ((1 - bl) * (1 - sa) * effectiveTotal)
  let finalOther := ot / ((1 - mx) * (1 - bl) * (1 - sa) * effectiveTotal)
  let finalWhite := (1 - finalSA - finalBlack - finalMixed - finalOther) * (1 - un)
  [("unknown", un), ("south_asian", finalSA), ("black", finalBlack),
   ("mixed", finalMixed), ("other", finalOther), ("white", finalWhite)]

/-- `StandardPracticeFactory._generate_demographics`. -/
def genDemographics (dc : DemographicConfigE) (z : ℚ) : Except GenError ℚ :=
  if ¬ (0 ≤ dc.male_proportion_mean ∧ dc.male_proportion_mean ≤ 1) then
    .error (.configurationError "Male proportion mean must be between 0 and 1")
  else if dc.male_proportion_sd ≤ 0 then
    .error (.configurationError "Male proportion standard deviation must be positive")
  else
    .ok (npClip (dc.male_proportion_mean + dc.male_proportion_sd * z) 0 1)

/-- `StandardPracticeFactory._generate_transfer_parameters`. -/
def genTransferParameters (rc : RegistrationConfigE) (zp zmin zmed zmax : ℚ) :
    Except GenError TransferParameters :=
  if ¬ (0 ≤ rc.transfer_probability_mean ∧ rc.transfer_probability_mean ≤ 1) then
    .error (.configurationError "Transfer probability mean must be between 0 and 1")
  else if rc.transfer_probability_sd ≤ 0 then
    .error (.configurationError "Transfer probability standard deviation must be positive")
  else if rc.min_transfer_gap_sd ≤ 0 ∨ rc.med_transfer_gap_sd ≤ 0 ∨
      rc.max_transfer_gap_sd ≤ 0 then
    .error (.configurationError "All transfer gap standard deviations must be positive")
  else if ¬ (rc.min_transfer_gap < rc.med_transfer_gap_mean ∧
      rc.med_transfer_gap_mean < rc.max_transfer_gap_mean) then
    .error (.configurationError "Transfer gap means must be properly ordered")
  else
    let prob := npClip (rc.transfer_probability_mean +
      rc.transfer_probability_sd * zp) 0 1
    let minimum := max 0 (rc.min_transfer_gap + pyRound1 (rc.min_transfer_gap_sd * zmin))
    let median := max (minimum + 100)
      (rc.med_transfer_gap_mean + rc.med_transfer_gap_sd * zmed)
    let maximum := max (median + 100)
      (rc.max_transfer_gap_mean + rc.max_transfer_gap_sd * zmax)
    mkTransferParameters prob minimum median maximum

/-- `StandardPracticeFactory._generate_birth_years`. -/
def genBirthYears (dc : DemographicConfigE) (ze zm zl : ℚ) :
    Except GenError BirthYearParameters :=
  if dc.min_yob_sd ≤ 0 ∨ dc.med_yob_sd ≤ 0 ∨ dc.max_yob_sd ≤ 0 then
    .error (.configurationError "All birth year standard deviations must be positive")
  else if ¬ (dc.min_yob_mean < dc.med_yob_mean ∧ dc.med_yob_mean < dc.max_yob_mean) then
    .error (.configurationError "Birth year means must be in chronological order")
  else if ¬ (1800 ≤ dc.min_yob_mean ∧ dc.min_yob_mean ≤ 2024) then
    .error (.configurationError "Earliest birth year mean must be realistic (1800-2024)")
  else
    let earliest := dc.min_yob_mean + dc.min_yob_sd * ze
    let median := max (earliest + 5) (dc.med_yob_mean + dc.med_yob_sd * zm)
    let latest := max (median + 5) (dc.max_yob_mean + dc.max_yob_sd * zl)
    mkBirthYearParameters (pyRound1 earliest) (pyRound1 median) (pyRound1 latest)

/-- `StandardPracticeFactory.create_practice`, with the generator calls
in source order; the first raised error aborts the construction. -/
def createPractice (cfg : PracticeConfigE) (pd : PracticeDraws) (pid : ℤ) :
    Except GenError Practice :=
  match genPracticeSize cfg pd.chi1 pd.chi2 with
  | .error e => .error e
  | .ok size =>
    match genRegistrationDates cfg.registration pd.expOff pd.zRegEarly pd.zRegMed with
    | .error e => .error e
    | .ok rd =>
      let props := genEthnicityProportions pd.rawSouthAsian pd.rawBlack pd.rawOther
        pd.rawMixed pd.rawUnknown
      match genDemographics cfg.demographics pd.zMale with
      | .error e => .error e
      | .ok mp =>
        match genTransferParameters cfg.registration pd.zTransferProb pd.zTransferMin
            pd.zTransferMed pd.zTransferMax with
        | .error e => .error e
        | .ok tp =>
          match genBirthYears cfg.demographics pd.zYobEarliest pd.zYobMedian
              pd.zYobLatest with
          | .error e => .error e
          | .ok byp => mkPractice pid size mp rd tp byp props

/-- Error propagation of a Python list comprehension over a fallible
body: the first raised error aborts the whole list. -/
def mapExcept (f : α → Except GenError β) : List α → Except GenError (List β)
  | [] => .ok []
  | a :: l => do
    let b ← f a
    let bs ← mapExcept f l
    pure (b :: bs)

/-- The message of the `ValueError` raised for a non-positive practice
count (the InvalidArgument case of the design error taxonomy). -/
def numberOfPracticesMsg : String := "Number of practices must be positive"

/-- `StandardPracticeFactory.create_practices`: sequential identifiers
1..count, each practice generated from the next block of draws of the
shared stream. -/
def createPractices (cfg : PracticeConfigE) (ds : ℕ → PracticeDraws) (n : ℤ) :
    Except GenError (List Practice) :=
  if n ≤ 0 then
    .error (.invalidArgument numberOfPracticesMsg)
  else
    mapExcept (fun i => createPractice cfg (ds i) ((i : ℤ) + 1)) (List.range n.toNat)

/-! ## Patient factory (src/patients/factory.py) -/

/-- The random draws consumed while generating one patient.  Uniform
draws `u*` are standard (unit-interval) draws; `bBeta` is the Beta(2, 0.5)
draw.  A field is consumed only on the code path that samples it. -/
structure PatientDraws where
  uSex : ℚ
  uEthUnknown : ℚ
  uEthMain : ℚ
  bBeta : ℚ
  uDayOfYear : ℚ
  uReg : ℚ
  uRegOverride : ℚ
  uTransfer : ℚ
  uGap : ℚ
  uBuffer : ℚ

/-- Big-endian decimal digit list of a natural number. -/
def natDigits (n : ℕ) : List ℕ := (Nat.digits 10 n).reverse

/-- Zero-pad a digit list on the left to width 3: `f"{p:03d}"`. -/
def pad3 (l : List ℕ) : List ℕ := List.replicate (3 - l.length) 0 ++ l

/-- Parse a big-endian digit list: `int(s)`. -/
def parseDigits (l : List ℕ) : ℕ := l.foldl (fun a d => 10 * a + d) 0

/-- `PatientFactory._generate_patient_id`: concatenate the decimal
digits of `index + 1` with the practice id zero-padded to 3 digits and
parse the result as an integer. -/
def genPatientId (index pid : ℕ) : ℕ :=
  parseDigits (natDigits (index + 1) ++ pad3 (natDigits pid))

/-- `PatientFactory._generate_sex`. -/
def genSex (maleProportion u : ℚ) : Sex :=
  if u < maleProportion then .MALE else .FEMALE

/-- `Ethnicity[eth_name.upper()]`; the key set is guaranteed by
`Practice.__post_init__`, so unmatched names cannot occur on live data. -/
def ethnicityOfName (s : String) : Ethnicity :=
  if s = "white" then .WHITE
  else if s = "south_asian" then .SOUTH_ASIAN
  else if s = "black" then .BLACK
  else if s = "mixed" then .MIXED
  else if s = "other" then .OTHER
  else .UNKNOWN

/-- The cumulative-probability walk of `_generate_ethnicity`, skipping
the `unknown` entry, with running cumulative sum `cum`. -/
def pickEthnicityAux (eff u : ℚ) : List (String × ℚ) → ℚ → Ethnicity
  | [], _ => .WHITE
  | (name, p) :: rest, cum =>
    if name = "unknown" then pickEthnicityAux eff u rest cum
    else
      let c := cum + p / eff
      if u < c then ethnicityOfName name else pickEthnicityAux eff u rest c

/-- `PatientFactory._generate_ethnicity`: first draw decides unknown,
second walks the cumulative proportions normalized by `1 - unknown`. -/
def genEthnicityPick (props : List (String × ℚ)) (u1 u2 : ℚ) : Ethnicity :=
  let unknown := (props.lookup "unknown").getD 0
  if u1 < unknown then .UNKNOWN
  else pickEthnicityAux (1 - unknown) u2 props 0

/-- `PatientFactory._generate_birth_date`: Beta-distributed year scaled
into the practice birth-year range, uniform day within the year,
truncated to an integer day-offset from 1960-01-01. -/
def genBirthDate (byp : BirthYearParameters) (bBeta uDay : ℚ) : ℤ :=
  let year := byp.earliest_birth_year +
    bBeta * (byp.latest_birth_year - byp.earliest_birth_year)
  let dayOfYear := uDay * 365.25
  pyTrunc ((year - 1960) * 365.25 + dayOfYear)

/-- `PatientFactory._generate_registration_date`: uniform inside the
registration period (floored at day 0); if the sample does not exceed
the birth date, resample as birth plus uniform(0, 5 years); round to an
integer day-offset. -/
def genRegistrationDate (rd : RegistrationDates) (birth : ℤ) (uReg uOver : ℚ) : ℤ :=
  let lo := max 0 rd.earliest_registration
  let r0 := lo + uReg * (rd.latest_registration - lo)
  let r := if (birth : ℚ) ≥ r0 then (birth : ℚ) + uOver * (5 * 365.25) else r0
  pyRound r

/-- `PatientFactory._generate_transfer_date`: Bernoulli trigger, uniform
gap, and the eligibility filter (candidate at most the latest
registration bound and strictly after both the fixed post-1991 offset
11323 and the randomized 18th-birthday threshold). -/
def genTransferDate (tp : TransferParameters) (latestReg : ℚ) (birth reg : ℤ)
    (uT uGap uBuf : ℚ) : Option ℤ :=
  if uT < tp.transfer_probability then
    let gap := tp.minimum_gap + uGap * (tp.maximum_gap - tp.minimum_gap)
    let potential := (reg : ℚ) + gap
    let minTransfer := max 11323 ((birth : ℚ) + 18 * 365.25 + 7 + uBuf * 60)
    if potential ≤ latestReg ∧ minTransfer < potential then
      some (pyRound potential)
    else
      none
  else
    none

/-- `PatientFactory._generate_death_date`: deterministic candidate at
birth plus 105 years, recorded only when at most the latest
registration bound and not after a recorded transfer. -/
def genDeathDate (latestReg : ℚ) (birth : ℤ) (td : Option ℤ) : Option ℤ :=
  let potential := birth + pyTrunc (105 * (365.25 : ℚ))
  match td with
  | none => if (potential : ℚ) ≤ latestReg then some potential else none
  | some t =>
    if (potential : ℚ) ≤ latestReg ∧ potential ≤ t then some potential else none

/-- `PatientFactory.create_patient`, with the generator calls in source
order. -/
def createPatient (pr : Practice) (index : ℕ) (pd : PatientDraws) :
    Except GenError Patient :=
  let pid := genPatientId index pr.practice_id.toNat
  let sex := genSex pr.male_proportion pd.uSex
  let eth := genEthnicityPick pr.ethnicity_proportions pd.uEthUnknown pd.uEthMain
  let birth := genBirthDate pr.birth_years pd.bBeta pd.uDayOfYear
  let reg := genRegistrationDate pr.registration_dates birth pd.uReg pd.uRegOverride
  let td := genTransferDate pr.transfer_params
    pr.registration_dates.latest_registration birth reg pd.uTransfer pd.uGap pd.uBuffer
  let dd := genDeathDate pr.registration_dates.latest_registration birth td
  mkPatient pid pr.practice_id birth reg sex eth td dd

/-- `PatientFactory.create_patients`: one patient per sequence index,
roster-level uniqueness check, then sort ascending by patient id. -/
def createPatients (pr : Practice) (ds : ℕ → PatientDraws) :
    Except GenError (List Patient) :=
  match mapExcept (fun i => createPatient pr i (ds i))
      (List.range pr.patient_count.toNat) with
  | .error e => .error e
  | .ok patients =>
    if (patients.map (fun p => p.patient_id)).Nodup then
      .ok (patients.insertionSort (fun a b => a.patient_id ≤ b.patient_id))
    else
      .error (.duplicateIdentifier "Duplicate patient IDs found")

/-- The whole two-stage run: practices from the practice-draw stream,
then each roster from the patient-draw stream of that practice. -/
def generateAll (cfg : PracticeConfigE) (pds : ℕ → PracticeDraws)
    (patds : ℕ → ℕ → PatientDraws) (n : ℤ) :
    Except GenError (List Practice × List (List Patient)) :=
  match createPractices cfg pds n with
  | .error e => .error e
  | .ok ps =>
    match mapExcept (fun pr => createPatients pr (patds pr.practice_id.toNat)) ps with
    | .error e => .error e
    | .ok rosters => .ok (ps, rosters)

/-! ## Claim theorems -/

/-- C1: the claim says a Patient carrying both a death and a transfer
date constructs exactly when death_date is at most transfer_date, and
that the factory produces exactly such patients.  On the code the
constructor check is inverted: it raises precisely when
death_date is at most the transfer_date (first and fourth conjunct:
the factory-produced combination is rejected), and accepts a death
date after the transfer date (second conjunct). -/
theorem patient_death_transfer_check_contradiction :
    (mkPatient 1001 1 0 100 .MALE .WHITE (some 200) (some 150)).isOk = false ∧
    (mkPatient 1001 1 0 100 .MALE .WHITE (some 200) (some 250)).isOk = true ∧
    genDeathDate 20000 (-40000) (some (-1600)) = some (-1649) ∧
    (mkPatient 1001 1 (-40000) (-39000) .MALE .WHITE (some (-1600))
      (some (-1649))).isOk = false := by
  refine ⟨by decide, by decide, ?_, by decide⟩
  norm_num [genDeathDate, pyTrunc]

/-- C10: with an optional date equal to 0 the truthiness guard skips
the ordering checks: a transfer date 0 at most the registration date,
or a death date 0 at most the birth date, still constructs. -/
theorem patient_zero_date_truthiness_skip (b r : ℤ) (hbr : b < r) (hb : 0 ≤ b) :
    ((mkPatient 1 1 b r .MALE .WHITE (some 0) none).isOk = true ∧ (0:ℤ) ≤ r) ∧
    ((mkPatient 1 1 b r .MALE .WHITE none (some 0)).isOk = true ∧ (0:ℤ) ≤ b) := by
  have h1 : ¬ (r ≤ b) := not_le.mpr hbr
  refine ⟨⟨?_, by omega⟩, ?_, hb⟩ <;>
    simp [mkPatient, optTruthy, optVal, h1, Except.isOk, Except.toBool]

theorem patient_zero_date_truthiness_skip_witness :
    ((0:ℤ) < 5 ∧ (0:ℤ) ≤ 0) ∧
    ((mkPatient 1 1 0 5 .MALE .WHITE (some 0) none).isOk = true ∧ (0:ℤ) ≤ 5) ∧
    ((mkPatient 1 1 0 5 .MALE .WHITE none (some 0)).isOk = true ∧ (0:ℤ) ≤ 0) :=
  ⟨⟨by decide, by decide⟩,
    patient_zero_date_truthiness_skip 0 5 (by decide) (by decide)⟩

/-- C3: the registration date is claimed strictly greater than the
birth date for every pair of uniform draws; with birth 100, an initial
draw landing at day 50 (triggering the resample override) and an
override offset of 0.3 days, the rounded result equals the birth date,
and the Patient constructor then rejects the pair. -/
theorem registration_date_can_equal_birth_date :
    genRegistrationDate ⟨1000, 0, 500⟩ 100 (1/20) (2/12175) = 100 ∧
    ¬ (100 < genRegistrationDate ⟨1000, 0, 500⟩ 100 (1/20) (2/12175)) ∧
    (mkPatient 1001 1 100 (genRegistrationDate ⟨1000, 0, 500⟩ 100 (1/20) (2/12175))
      .MALE .WHITE none none).isOk = false := by
  have h : genRegistrationDate ⟨1000, 0, 500⟩ 100 (1/20) (2/12175) = 100 := by
    norm_num [genRegistrationDate, pyRound]
  refine ⟨h, by omega, ?_⟩
  rw [h]; decide

/-- C4 counterexample: with the default configuration (positive degrees
of freedom 30 and 20 and multiplier 1000) and the strictly positive
chi-square draws 1/100 and 100, the practice-size operation returns 0,
not an integer at least 1. -/
theorem practice_size_claim_counterexample :
    genPracticeSize defaultConfigE (1/100) 100 = .ok 0 ∧
    (0:ℚ) < 1/100 ∧ (0:ℚ) < 100 ∧ ¬ (1 ≤ (0:ℤ)) := by
  refine ⟨?_, by norm_num, by norm_num, by omega⟩
  norm_num [genPracticeSize, defaultConfigE, pyRound]

/-- C4 (amended): for positive degrees of freedom, multiplier and
chi-square draws the practice-size operation returns the banker-rounded
scaled ratio, a nonnegative (not necessarily positive) integer, and a
non-positive degrees-of-freedom value or multiplier yields a
configuration error for every draw pair, i.e. before any sample can
matter. -/
theorem practice_size_nonneg_and_validation (cfg : PracticeConfigE) (n1 n2 : ℚ) :
    (0 < cfg.practice_size_df1 → 0 < cfg.practice_size_df2 →
      0 < cfg.practice_size_multiplier → 0 < n1 → 0 < n2 →
      genPracticeSize cfg n1 n2 = .ok (pyRound (cfg.practice_size_multiplier *
        (n1 / (cfg.practice_size_df1 : ℚ)) / (n2 / (cfg.practice_size_df2 : ℚ)))) ∧
      0 ≤ pyRound (cfg.practice_size_multiplier *
        (n1 / (cfg.practice_size_df1 : ℚ)) / (n2 / (cfg.practice_size_df2 : ℚ)))) ∧
    (cfg.practice_size_df1 ≤ 0 ∨ cfg.practice_size_df2 ≤ 0 ∨
      cfg.practice_size_multiplier ≤ 0 →
      (genPracticeSize cfg n1 n2).isOk = false) := by
  constructor
  · intro h1 h2 h3 h4 h5
    have hd1 : (0:ℚ) < (cfg.practice_size_df1 : ℚ) := by exact_mod_cast h1
    have hd2 : (0:ℚ) < (cfg.practice_size_df2 : ℚ) := by exact_mod_cast h2
    have hv : 0 < cfg.practice_size_multiplier *
        (n1 / (cfg.practice_size_df1 : ℚ)) / (n2 / (cfg.practice_size_df2 : ℚ)) := by
      positivity
    refine ⟨?_, pyRound_nonneg _ hv.le⟩
    unfold genPracticeSize
    rw [if_neg (by omega), if_neg (not_le.mpr h3)]
  · intro h
    unfold genPracticeSize
    split
    · rfl
    · split
      · rfl
      · rename_i hA hB
        exfalso
        rcases h with h | h | h
        · exact hA (Or.inl h)
        · exact hA (Or.inr h)
        · exact hB h

theorem practice_size_nonneg_and_validation_witness :
    (0 < defaultConfigE.practice_size_df1 ∧ 0 < defaultConfigE.practice_size_df2 ∧
      0 < defaultConfigE.practice_size_multiplier ∧ (0:ℚ) < 30 ∧ (0:ℚ) < 20) ∧
    genPracticeSize defaultConfigE 30 20 =
      .ok (pyRound (defaultConfigE.practice_size_multiplier *
        ((30:ℚ) / (defaultConfigE.practice_size_df1 : ℚ)) /
        ((20:ℚ) / (defaultConfigE.practice_size_df2 : ℚ)))) ∧
    0 ≤ pyRound (defaultConfigE.practice_size_multiplier *
        ((30:ℚ) / (defaultConfigE.practice_size_df1 : ℚ)) /
        ((20:ℚ) / (defaultConfigE.practice_size_df2 : ℚ))) :=
  ⟨⟨by decide, by decide, by norm_num [defaultConfigE], by norm_num, by norm_num⟩,
    (practice_size_nonneg_and_validation defaultConfigE 30 20).1
      (by decide) (by decide) (by norm_num [defaultConfigE]) (by norm_num) (by norm_num)⟩

/-- C5: every successfully constructed practice sub-entity satisfies
its ordering invariants (registration earliest at most median at most
latest; transfer minimum nonnegative and at most median at most
maximum; birth earliest at most median at most latest), and any
ordering violation makes the construction fail. -/
theorem practice_ordering_invariants (l e m p mn md mx eb mb lb : ℚ) :
    ((mkRegistrationDates l e m).isOk = true → e ≤ m ∧ m ≤ l) ∧
    (¬ (e ≤ m ∧ m ≤ l) → (mkRegistrationDates l e m).isOk = false) ∧
    ((mkTransferParameters p mn md mx).isOk = true →
      0 ≤ mn ∧ mn ≤ md ∧ md ≤ mx) ∧
    (¬ (mn ≤ md ∧ md ≤ mx) → (mkTransferParameters p mn md mx).isOk = false) ∧
    (mn < 0 → (mkTransferParameters p mn md mx).isOk = false) ∧
    ((mkBirthYearParameters eb mb lb).isOk = true → eb ≤ mb ∧ mb ≤ lb) ∧
    (¬ (eb ≤ mb ∧ mb ≤ lb) → (mkBirthYearParameters eb mb lb).isOk = false) := by
  refine ⟨?_, ?_, ?_, ?_, ?_, ?_, ?_⟩
  · intro h
    unfold mkRegistrationDates at h
    split at h
    · assumption
    · simp [Except.isOk, Except.toBool] at h
  · intro h
    unfold mkRegistrationDates
    rw [if_neg h]
    rfl
  · intro h
    unfold mkTransferParameters at h
    split at h
    · simp [Except.isOk, Except.toBool] at h
    · split at h
      · simp [Except.isOk, Except.toBool] at h
      · split at h
        · simp [Except.isOk, Except.toBool] at h
        · rename_i h1 h2 h3
          push_neg at h3
          exact ⟨h3, not_not.mp h2⟩
  · intro h
    unfold mkTransferParameters
    split <;> try rfl
  · intro h
    unfold mkTransferParameters
    split <;> try rfl
    all_goals split <;> rfl
  · intro h
    unfold mkBirthYearParameters at h
    split at h
    · simp [Except.isOk, Except.toBool] at h
    · split at h
      · simp [Except.isOk, Except.toBool] at h
      · rename_i h1 h2
        exact not_not.mp h1
  · intro h
    unfold mkBirthYearParameters
    rw [if_pos h]
    rfl

theorem practice_ordering_invariants_witness :
    (mkRegistrationDates 1000 0 500).isOk = true ∧ ((0:ℚ) ≤ 500 ∧ (500:ℚ) ≤ 1000) :=
  ⟨by norm_num [mkRegistrationDates, Except.isOk, Except.toBool],
    (practice_ordering_invariants 1000 0 500 0 0 0 0 0 0 0).1
      (by norm_num [mkRegistrationDates, Except.isOk, Except.toBool])⟩

/-- C8: when the transfer Bernoulli draw triggers, the transfer date is
recorded exactly when the candidate (registration date plus the uniform
gap) is at most the latest-registration bound and strictly greater than
the maximum of the fixed day-offset 11323 and the birth date plus 18
years plus 7 days plus the uniform buffer of at most 60 days; in that
case the recorded value is the rounded candidate, and otherwise the
result is `none` without error. -/
theorem transfer_date_eligibility (tp : TransferParameters) (latest : ℚ)
    (b r : ℤ) (uT uGap uBuf : ℚ) (htrig : uT < tp.transfer_probability) :
    genTransferDate tp latest b r uT uGap uBuf =
      (if (r:ℚ) + (tp.minimum_gap + uGap * (tp.maximum_gap - tp.minimum_gap)) ≤ latest ∧
          max 11323 ((b:ℚ) + 18 * 365.25 + 7 + uBuf * 60) <
            (r:ℚ) + (tp.minimum_gap + uGap * (tp.maximum_gap - tp.minimum_gap))
        then some (pyRound ((r:ℚ) + (tp.minimum_gap + uGap * (tp.maximum_gap - tp.minimum_gap))))
        else none) ∧
    (genTransferDate tp latest b r uT uGap uBuf ≠ none ↔
      ((r:ℚ) + (tp.minimum_gap + uGap * (tp.maximum_gap - tp.minimum_gap)) ≤ latest ∧
        max 11323 ((b:ℚ) + 18 * 365.25 + 7 + uBuf * 60) <
          (r:ℚ) + (tp.minimum_gap + uGap * (tp.maximum_gap - tp.minimum_gap)))) := by
  have heq : genTransferDate tp latest b r uT uGap uBuf =
      (if (r:ℚ) + (tp.minimum_gap + uGap * (tp.maximum_gap - tp.minimum_gap)) ≤ latest ∧
          max 11323 ((b:ℚ) + 18 * 365.25 + 7 + uBuf * 60) <
            (r:ℚ) + (tp.minimum_gap + uGap * (tp.maximum_gap - tp.minimum_gap))
        then some (pyRound ((r:ℚ) + (tp.minimum_gap + uGap * (tp.maximum_gap - tp.minimum_gap))))
        else none) := by
    unfold genTransferDate
    rw [if_pos htrig]
  refine ⟨heq, ?_⟩
  rw [heq]
  split
  · rename_i hc
    simpa using hc
  · rename_i hc
    simpa using hc

theorem transfer_date_eligibility_witness :
    ((0:ℚ) < (1/2 : ℚ)) ∧
    genTransferDate ⟨1/2, 0, 100, 200⟩ 20000 0 15000 0 (3/4) 0 = some 15150 :=
  ⟨by norm_num,
    by
      have h := (transfer_date_eligibility ⟨1/2, 0, 100, 200⟩ 20000 0 15000 0 (3/4) 0
        (by norm_num)).1
      rw [h]
      norm_num [pyRound]⟩

lemma mkPractice_ok_sum_bounds (pid cnt : ℤ) (mp : ℚ) (rd : RegistrationDates)
    (tp : TransferParameters) (byp : BirthYearParameters) (props : List (String × ℚ))
    (h : (mkPractice pid cnt mp rd tp byp props).isOk = true) :
    1 ≤ ethSum props ∧ ethSum props < 2 := by
  unfold mkPractice at h
  split at h
  · simp [Except.isOk, Except.toBool] at h
  · split at h
    · simp [Except.isOk, Except.toBool] at h
    · split at h
      · simp [Except.isOk, Except.toBool] at h
      · split at h
        · simp [Except.isOk, Except.toBool] at h
        · split at h
          · simp [Except.isOk, Except.toBool] at h
          · rename_i h1 h2 h3 hvals hsum
            have hall := List.all_eq_true.mp (not_not.mp hvals)
            have hnn : 0 ≤ ethSum props := by
              apply List.sum_nonneg
              intro x hx
              obtain ⟨kv, hkv, rfl⟩ := List.mem_map.mp hx
              exact (of_decide_eq_true (hall kv hkv)).1
            have hs : pyTrunc (ethSum props) = 1 := not_not.mp hsum
            rw [pyTrunc, if_neg (not_lt.mpr hnn)] at hs
            obtain ⟨hlo, hhi⟩ := Int.floor_eq_iff.mp hs
            constructor
            · exact_mod_cast hlo
            · exact_mod_cast hhi

/-- C2: the six ethnicity proportions produced by the conditional
chain have exactly the required key set; their sum is exactly
1 plus the product of the unknown raw probability with the sum of the
four rescaled non-white values (the white remainder cancels the rest);
and every practice accepted by the entity validation has that sum
within the rounding tolerance enforced by the validator, i.e. in
the interval from 1 inclusive to 2 exclusive. -/
theorem practice_ethnicity_proportions_sum_keys
    (sa bl ot mx un : ℚ) (pid cnt : ℤ) (mp : ℚ) (rd : RegistrationDates)
    (tp : TransferParameters) (byp : BirthYearParameters) :
    sameKeySet ((genEthnicityProportions sa bl ot mx un).map Prod.fst) = true ∧
    ethSum (genEthnicityProportions sa bl ot mx un) =
      1 + (sa / (1 - un) + bl / ((1 - sa) * (1 - un)) +
        mx / ((1 - bl) * (1 - sa) * (1 - un)) +
        ot / ((1 - mx) * (1 - bl) * (1 - sa) * (1 - un))) * un ∧
    ((mkPractice pid cnt mp rd tp byp
        (genEthnicityProportions sa bl ot mx un)).isOk = true →
      1 ≤ ethSum (genEthnicityProportions sa bl ot mx un) ∧
      ethSum (genEthnicityProportions sa bl ot mx un) < 2) := by
  refine ⟨?_, ?_, fun h => mkPractice_ok_sum_bounds _ _ _ _ _ _ _ h⟩
  · simp [genEthnicityProportions, sameKeySet, requiredEthnicityKeys]
  · simp only [genEthnicityProportions, ethSum, List.map_cons, List.map_nil,
      List.sum_cons, List.sum_nil]
    ring

theorem practice_ethnicity_proportions_sum_keys_witness :
    (mkPractice 1 1000 (2/5) ⟨20926, -4890, 11000⟩ ⟨1/5, 400, 7000, 22400⟩
      ⟨1910, 1943, 1980⟩
      (genEthnicityProportions (1/100) (1/100) (1/100) (1/100) (1/100))).isOk = true ∧
    (1 ≤ ethSum (genEthnicityProportions (1/100) (1/100) (1/100) (1/100) (1/100)) ∧
      ethSum (genEthnicityProportions (1/100) (1/100) (1/100) (1/100) (1/100)) < 2) :=
  have hok : (mkPractice 1 1000 (2/5) ⟨20926, -4890, 11000⟩ ⟨1/5, 400, 7000, 22400⟩
      ⟨1910, 1943, 1980⟩
      (genEthnicityProportions (1/100) (1/100) (1/100) (1/100) (1/100))).isOk = true := by
    norm_num [mkPractice, genEthnicityProportions, ethSum, sameKeySet,
      requiredEthnicityKeys, pyTrunc, Except.isOk, Except.toBool]
  ⟨hok, (practice_ethnicity_proportions_sum_keys (1/100) (1/100) (1/100) (1/100) (1/100)
    1 1000 (2/5) ⟨20926, -4890, 11000⟩ ⟨1/5, 400, 7000, 22400⟩ ⟨1910, 1943, 1980⟩).2.2 hok⟩

lemma parseDigits_go (l : List ℕ) (a : ℕ) :
    l.foldl (fun acc d => 10 * acc + d) a =
      a * 10 ^ l.length + l.foldl (fun acc d => 10 * acc + d) 0 := by
  induction l generalizing a with
  | nil => simp
  | cons d t ih =>
    simp only [List.foldl_cons, List.length_cons]
    rw [ih (10 * a + d), ih (10 * 0 + d)]
    ring

lemma parseDigits_append (l1 l2 : List ℕ) :
    parseDigits (l1 ++ l2) = parseDigits l1 * 10 ^ l2.length + parseDigits l2 := by
  unfold parseDigits
  rw [List.foldl_append, parseDigits_go]

lemma parseDigits_pad3 (l : List ℕ) : parseDigits (pad3 l) = parseDigits l := by
  unfold pad3
  rw [parseDigits_append]
  have hz : parseDigits (List.replicate (3 - l.length) 0) = 0 := by
    induction (3 - l.length) with
    | zero => rfl
    | succ n ih =>
      rw [List.replicate_succ]
      unfold parseDigits at ih ⊢
      simpa using ih
  rw [hz, zero_mul, zero_add]

lemma pad3_length (l : List ℕ) : (pad3 l).length = max 3 l.length := by
  unfold pad3
  simp only [List.length_append, List.length_replicate]
  omega

lemma parseDigits_natDigits (n : ℕ) : parseDigits (natDigits n) = n := by
  unfold parseDigits natDigits
  rw [List.foldl_reverse]
  have : ∀ l : List ℕ, l.foldr (fun d a => 10 * a + d) 0 = Nat.ofDigits 10 l := by
    intro l
    induction l with
    | nil => simp [Nat.ofDigits]
    | cons d t ih =>
      simp only [List.foldr_cons, Nat.ofDigits_cons, ih]
      ring
  rw [show (fun (x : ℕ) (y : ℕ) => 10 * y + x) = (fun d a => 10 * a + d) from rfl, this,
    Nat.ofDigits_digits]

/-- C7: the patient identifier is the parse of the decimal digits of
the 1-based sequence number followed by the practice identifier
zero-padded to width 3, so it equals the sequence number shifted by
the padded width, and for practice identifiers up to 999 it is
(index + 1) * 1000 + practice id. -/
theorem patient_id_composition (i p : ℕ) (_hp : 1 ≤ p) :
    genPatientId i p = (i + 1) * 10 ^ max 3 (natDigits p).length + p ∧
    (p ≤ 999 → genPatientId i p = (i + 1) * 1000 + p) := by
  have h1 : genPatientId i p = (i + 1) * 10 ^ max 3 (natDigits p).length + p := by
    unfold genPatientId
    rw [parseDigits_append, parseDigits_pad3, parseDigits_natDigits,
      parseDigits_natDigits, pad3_length]
  refine ⟨h1, fun hle => ?_⟩
  have hlen : (natDigits p).length ≤ 3 := by
    unfold natDigits
    rw [List.length_reverse]
    have hmono := Nat.le_digits_len_le 10 p 999 hle
    have hlog : Nat.log 10 999 = 2 :=
      Nat.log_eq_of_pow_le_of_lt_pow (by norm_num) (by norm_num)
    have h999 : (Nat.digits 10 999).length = 3 := by
      rw [Nat.digits_len 10 999 (by norm_num) (by norm_num), hlog]
    omega
  rw [h1, max_eq_left hlen]
  norm_num

theorem patient_id_composition_witness :
    (1 ≤ 1 ∧ 1 ≤ 999) ∧ genPatientId 0 1 = (0 + 1) * 1000 + 1 :=
  ⟨⟨by decide, by decide⟩, (patient_id_composition 0 1 (by decide)).2 (by decide)⟩

lemma mkRegistrationDates_error_class (l e m : ℚ) (er : GenError)
    (h : mkRegistrationDates l e m = .error er) : er.isInvalidArgument = false := by
  unfold mkRegistrationDates at h
  repeat' first
    | (injection h with h2; subst h2; rfl)
    | exact Except.noConfusion h
    | split at h

lemma mkTransferParameters_error_class (p mn md mx : ℚ) (er : GenError)
    (h : mkTransferParameters p mn md mx = .error er) : er.isInvalidArgument = false := by
  unfold mkTransferParameters at h
  repeat' first
    | (injection h with h2; subst h2; rfl)
    | exact Except.noConfusion h
    | split at h

lemma mkBirthYearParameters_error_class (e m l : ℚ) (er : GenError)
    (h : mkBirthYearParameters e m l = .error er) : er.isInvalidArgument = false := by
  unfold mkBirthYearParameters at h
  repeat' first
    | (injection h with h2; subst h2; rfl)
    | exact Except.noConfusion h
    | split at h

lemma mkPractice_error_class (pid cnt : ℤ) (mp : ℚ) (rd : RegistrationDates)
    (tp : TransferParameters) (byp : BirthYearParameters)
    (props : List (String × ℚ)) (er : GenError)
    (h : mkPractice pid cnt mp rd tp byp props = .error er) :
    er.isInvalidArgument = false := by
  unfold mkPractice at h
  repeat' first
    | (injection h with h2; subst h2; rfl)
    | exact Except.noConfusion h
    | split at h

lemma genPracticeSize_error_class (cfg : PracticeConfigE) (n1 n2 : ℚ) (er : GenError)
    (h : genPracticeSize cfg n1 n2 = .error er) : er.isInvalidArgument = false := by
  unfold genPracticeSize at h
  repeat' first
    | (injection h with h2; subst h2; rfl)
    | exact Except.noConfusion h
    | split at h

lemma genRegistrationDates_error_class (rc : RegistrationConfigE) (e z1 z2 : ℚ)
    (er : GenError) (h : genRegistrationDates rc e z1 z2 = .error er) :
    er.isInvalidArgument = false := by
  unfold genRegistrationDates at h
  split at h
  · injection h with h2; subst h2; rfl
  · exact mkRegistrationDates_error_class _ _ _ _ h

lemma genDemographics_error_class (dc : DemographicConfigE) (z : ℚ) (er : GenError)
    (h : genDemographics dc z = .error er) : er.isInvalidArgument = false := by
  unfold genDemographics at h
  repeat' first
    | (injection h with h2; subst h2; rfl)
    | exact Except.noConfusion h
    | split at h

lemma genTransferParameters_error_class (rc : RegistrationConfigE) (z1 z2 z3 z4 : ℚ)
    (er : GenError) (h : genTransferParameters rc z1 z2 z3 z4 = .error er) :
    er.isInvalidArgument = false := by
  unfold genTransferParameters at h
  split at h
  · injection h with h2; subst h2; rfl
  · split at h
    · injection h with h2; subst h2; rfl
    · split at h
      · injection h with h2; subst h2; rfl
      · split at h
        · injection h with h2; subst h2; rfl
        · exact mkTransferParameters_error_class _ _ _ _ _ h

lemma genBirthYears_error_class (dc : DemographicConfigE) (z1 z2 z3 : ℚ)
    (er : GenError) (h : genBirthYears dc z1 z2 z3 = .error er) :
    er.isInvalidArgument = false := by
  unfold genBirthYears at h
  split at h
  · injection h with h2; subst h2; rfl
  · split at h
    · injection h with h2; subst h2; rfl
    · split at h
      · injection h with h2; subst h2; rfl
      · exact mkBirthYearParameters_error_class _ _ _ _ h

lemma createPractice_error_class (cfg : PracticeConfigE) (pd : PracticeDraws)
    (pid : ℤ) (er : GenError) (h : createPractice cfg pd pid = .error er) :
    er.isInvalidArgument = false := by
  unfold createPractice at h
  split at h
  · rename_i heq
    cases h
    exact genPracticeSize_error_class _ _ _ _ heq
  · split at h
    · rename_i heq
      cases h
      exact genRegistrationDates_error_class _ _ _ _ _ heq
    · split at h
      · rename_i heq
        cases h
        exact genDemographics_error_class _ _ _ heq
      · split at h
        · rename_i heq
          cases h
          exact genTransferParameters_error_class _ _ _ _ _ _ heq
        · split at h
          · rename_i heq
            cases h
            exact genBirthYears_error_class _ _ _ _ _ heq
          · exact mkPractice_error_class _ _ _ _ _ _ _ _ h

lemma mkPractice_ok_pid (pid cnt : ℤ) (mp : ℚ) (rd : RegistrationDates)
    (tp : TransferParameters) (byp : BirthYearParameters)
    (props : List (String × ℚ)) (pr : Practice)
    (h : mkPractice pid cnt mp rd tp byp props = .ok pr) : pr.practice_id = pid := by
  unfold mkPractice at h
  repeat' first
    | exact Except.noConfusion h
    | split at h
  injection h with h2
  subst h2
  rfl

lemma createPractice_ok_pid (cfg : PracticeConfigE) (pd : PracticeDraws) (pid : ℤ)
    (pr : Practice) (h : createPractice cfg pd pid = .ok pr) :
    pr.practice_id = pid := by
  unfold createPractice at h
  split at h
  · cases h
  · split at h
    · cases h
    · split at h
      · cases h
      · split at h
        · cases h
        · split at h
          · cases h
          · exact mkPractice_ok_pid _ _ _ _ _ _ _ _ h

lemma mapExcept_ok (f : α → Except GenError β) (l : List α) (ys : List β)
    (h : mapExcept f l = .ok ys) :
    List.Forall₂ (fun a b => f a = .ok b) l ys := by
  induction l generalizing ys with
  | nil =>
    unfold mapExcept at h
    cases h
    exact .nil
  | cons a t ih =>
    unfold mapExcept at h
    cases hfa : f a with
    | error e =>
      rw [hfa] at h
      simp [Bind.bind, Except.bind] at h
    | ok b =>
      rw [hfa] at h
      cases hmt : mapExcept f t with
      | error e =>
        rw [hmt] at h
        simp [Bind.bind, Except.bind] at h
      | ok bs =>
        rw [hmt] at h
        simp only [Bind.bind, Except.bind, pure, Except.pure] at h
        cases h
        exact .cons hfa (ih bs hmt)

lemma mapExcept_error (f : α → Except GenError β) (l : List α) (e : GenError)
    (h : mapExcept f l = .error e) : ∃ a ∈ l, f a = .error e := by
  induction l with
  | nil =>
    unfold mapExcept at h
    cases h
  | cons a t ih =>
    unfold mapExcept at h
    cases hfa : f a with
    | error e1 =>
      rw [hfa] at h
      simp only [Bind.bind, Except.bind] at h
      cases h
      exact ⟨a, List.mem_cons_self a t, hfa⟩
    | ok b =>
      rw [hfa] at h
      cases hmt : mapExcept f t with
      | error e1 =>
        rw [hmt] at h
        simp only [Bind.bind, Except.bind] at h
        cases h
        obtain ⟨x, hx, hfx⟩ := ih hmt
        exact ⟨x, List.mem_cons_of_mem a hx, hfx⟩
      | ok bs =>
        rw [hmt] at h
        simp [Bind.bind, Except.bind, pure, Except.pure] at h

lemma forall₂_map_pid (gl : ℕ → ℤ) :
    ∀ {l : List ℕ} {ys : List Practice},
      List.Forall₂ (fun a b => b.practice_id = gl a) l ys →
      ys.map (fun pr => pr.practice_id) = l.map gl := by
  intro l ys h
  induction h with
  | nil => rfl
  | cons hab _ ih => simp [hab, ih]

/-- C6: the many-practice operation yields the invalid-argument error
exactly for a non-positive count (its error for non-positive counts is
the invalid-argument one, and no error produced for a positive count
is of that class), and any returned list holds exactly count
practices whose identifiers are 1..count in order, hence distinct. -/
theorem create_practices_count_and_ids (cfg : PracticeConfigE)
    (ds : ℕ → PracticeDraws) (n : ℤ) :
    (n ≤ 0 → createPractices cfg ds n = .error (.invalidArgument numberOfPracticesMsg)) ∧
    (1 ≤ n → ∀ e, createPractices cfg ds n = .error e → e.isInvalidArgument = false) ∧
    (∀ ps, createPractices cfg ds n = .ok ps →
      ps.length = n.toNat ∧
      ps.map (fun pr => pr.practice_id) = (List.range n.toNat).map (fun (i : ℕ) => (i : ℤ) + 1) ∧
      (ps.map (fun pr => pr.practice_id)).Nodup) := by
  refine ⟨?_, ?_, ?_⟩
  · intro h
    unfold createPractices
    rw [if_pos h]
  · intro hn e h
    unfold createPractices at h
    rw [if_neg (by omega)] at h
    obtain ⟨a, _, hfa⟩ := mapExcept_error _ _ _ h
    exact createPractice_error_class _ _ _ _ hfa
  · intro ps h
    unfold createPractices at h
    by_cases hn : n ≤ 0
    · rw [if_pos hn] at h
      exact Except.noConfusion h
    · rw [if_neg hn] at h
      have hf := mapExcept_ok _ _ _ h
      have hpid : List.Forall₂ (fun (i : ℕ) pr => pr.practice_id = (i : ℤ) + 1)
          (List.range n.toNat) ps :=
        hf.imp (fun _ _ hab => createPractice_ok_pid _ _ _ _ hab)
      have hmap := forall₂_map_pid (fun i => (i : ℤ) + 1) hpid
      refine ⟨?_, hmap, ?_⟩
      · rw [← hf.length_eq, List.length_range]
      · rw [hmap]
        refine List.Nodup.map ?_ (List.nodup_range n.toNat)
        intro a b hab
        dsimp only at hab
        omega

/-- A concrete practice-draw record: chi-square draws at their degrees
of freedom, all standard normal and exponential draws at 0, all raw
ethnicity probabilities at 1/100. -/
def zeroDraws : PracticeDraws :=
  ⟨30, 20, 0, 0, 0, 1/100, 1/100, 1/100, 1/100, 1/100, 0, 0, 0, 0, 0, 0, 0, 0⟩

theorem create_practices_count_and_ids_witness :
    (0 : ℤ) ≤ 0 ∧
    createPractices defaultConfigE (fun _ => zeroDraws) 0 =
      .error (.invalidArgument numberOfPracticesMsg) :=
  ⟨by decide,
    (create_practices_count_and_ids defaultConfigE (fun _ => zeroDraws) 0).1 (by decide)⟩

/-- A concrete patient-draw record with every draw at 0. -/
def zeroPatientDraws : PatientDraws := ⟨0, 0, 0, 0, 0, 0, 0, 0, 0, 0⟩

/-- C9: generation is deterministic under a fixed seed.  The random
source is a pure stream determined by the seed (the seeded numpy
generator), every sampling step reads from it in a fixed order, and
the engines have no other state, so two runs with the same seed, the
same configuration and the same count produce equal practice and
patient sequences. -/
theorem generation_deterministic (prng : ℕ → ℕ → PracticeDraws)
    (patrng : ℕ → ℕ → ℕ → PatientDraws) (cfg : PracticeConfigE) (seed : ℕ) (n : ℤ)
    (r₁ r₂ : Except GenError (List Practice × List (List Patient)))
    (h₁ : r₁ = generateAll cfg (prng seed) (patrng seed) n)
    (h₂ : r₂ = generateAll cfg (prng seed) (patrng seed) n) :
    r₁ = r₂ := by
  rw [h₁, h₂]

theorem generation_deterministic_witness :
    generateAll defaultConfigE ((fun _ _ => zeroDraws) 9147856)
        ((fun _ _ _ => zeroPatientDraws) 9147856) 1 =
      generateAll defaultConfigE ((fun _ _ => zeroDraws) 9147856)
        ((fun _ _ _ => zeroPatientDraws) 9147856) 1 :=
  generation_deterministic (fun _ _ => zeroDraws) (fun _ _ _ => zeroPatientDraws)
    defaultConfigE 9147856 1 _ _ rfl rfl
